import Mathlib

/-!
Verification of the sqleak leak-detection proxy layer.

Shallow embedding of the Go sources (conn.go, rows.go, and the driver /
statement / test files): machine-level details (goroutines, timers,
`sync.Pool`) are modelled by explicit state passing and event traces;
fallible Go calls become `Except Err`; Go interface type-assertions on
optional capabilities become `Option`-valued fields of the wrapped-resource
records.
-/

namespace Sqleak

/-- Errors surfaced by the proxy layer or the wrapped driver.
`errSkip` models `driver.ErrSkip`, `eof` models `io.EOF`,
`canceled` models `context.Canceled` (a possible value of `ctx.Err()`),
`errString` models `errors.New(msg)`. -/
inductive Err where
  | errSkip : Err
  | eof : Err
  | canceled : Err
  | deadlineExceeded : Err
  | errString (msg : String) : Err
deriving DecidableEq, Repr

/-- Opaque payload of a `driver.Value`. -/
abbrev Value := Int

/-- Opaque handle for a `driver.Result`. -/
abbrev DResult := Nat

/-- A `driver.NamedValue`: name, ordinal and value. -/
structure NamedValue where
  name : String
  ordinal : Nat
  value : Value
deriving DecidableEq, Repr

/-- A Go `context.Context`, reduced to what the proxies observe: whether
`ctx.Done()` is already closed (the non-blocking `select` poll) and the
value of `ctx.Err()` in that case. -/
structure Ctx where
  done : Bool
  errVal : Err
deriving DecidableEq, Repr

/-- The `monitor` struct of conn.go: fixed timeout (in nanoseconds),
captured stack text, closed flag, and the resource-kind label. -/
structure monitor where
  timeout : Nat
  stack : String
  closed : Bool
  resource : String
deriving DecidableEq, Repr

/-- `monitor.markClosed`: sets the closed flag. -/
def markClosed (m : monitor) : monitor :=
  { m with closed := true }

/-- Rendering of a Go `time.Duration` under the `%s` verb.  The formatting
itself is Go standard-library behaviour (not part of this repository), so it
is modelled as nanoseconds followed by the unit marker; the theorems below
depend only on the message template, never on this rendering. -/
def durationString (n : Nat) : String :=
  toString n ++ "ns"

/-- The warning record emitted by the deferred check in `newMonitor`
(conn.go): `log.Printf("likely resource leak detected: %s not closed within
%s after opening:\n%s", mon.resource, mon.timeout, string(mon.stack))`. -/
def leakMessage (m : monitor) : String :=
  "likely resource leak detected: " ++ m.resource ++ " not closed within "
    ++ durationString m.timeout ++ " after opening:\n" ++ m.stack

/-- A monitor together with its one-shot `time.AfterFunc` timer.
`pending = true` while the deferred check has not yet run; `time.AfterFunc`
invokes its callback at most once, which is what `pending` enforces. -/
structure MonProc where
  mon : monitor
  pending : Bool
deriving DecidableEq, Repr

/-- `newMonitor timeout stack resource`: monitor freshly created with
`closed = false` and its deferred check scheduled (pending). -/
def newMonitorProc (timeout : Nat) (stack : String) (resource : String) : MonProc :=
  ⟨⟨timeout, stack, false, resource⟩, true⟩

/-- Events observable by one monitor: its owning proxy's close path calling
`markClosed`, and the timer firing the deferred check. -/
inductive MEvent where
  | close : MEvent
  | fire : MEvent
deriving DecidableEq, Repr

/-- One event step.  `close` sets the closed flag.  `fire` runs the deferred
check of `newMonitor`: only possible while the timer is pending (one-shot),
it emits the leak record when the closed flag is still false and nothing
otherwise, then retires the timer. -/
def stepM : MonProc × List String → MEvent → MonProc × List String
  | (p, log), MEvent.close => ({ p with mon := markClosed p.mon }, log)
  | (p, log), MEvent.fire =>
      if p.pending then
        ({ p with pending := false },
          if p.mon.closed then log else log ++ [leakMessage p.mon])
      else (p, log)

/-- Run a monitor through a list of events, accumulating the log. -/
def runM (s : MonProc × List String) (es : List MEvent) : MonProc × List String :=
  es.foldl stepM s

lemma stepM_mon_fields (s : MonProc × List String) (e : MEvent) :
    (stepM s e).1.mon.timeout = s.1.mon.timeout ∧
    (stepM s e).1.mon.resource = s.1.mon.resource ∧
    (stepM s e).1.mon.stack = s.1.mon.stack := by
  rcases s with ⟨p, log⟩
  cases e with
  | close => simp [stepM, markClosed]
  | fire =>
      simp only [stepM]
      split <;> simp

lemma stepM_log_len (s : MonProc × List String) (e : MEvent) :
    (stepM s e).2.length + (if (stepM s e).1.pending then 1 else 0) ≤
      s.2.length + (if s.1.pending then 1 else 0) := by
  rcases s with ⟨p, log⟩
  cases e with
  | close => simp [stepM]
  | fire =>
      simp only [stepM]
      by_cases hp : p.pending
      · by_cases hc : p.mon.closed <;> simp [hp, hc]
      · simp [hp]

lemma runM_log_len (es : List MEvent) :
    ∀ s : MonProc × List String,
      (runM s es).2.length + (if (runM s es).1.pending then 1 else 0) ≤
        s.2.length + (if s.1.pending then 1 else 0) := by
  induction es with
  | nil => intro s; simp [runM]
  | cons e es ih =>
      intro s
      have h1 := stepM_log_len s e
      have h2 := ih (stepM s e)
      simp only [runM, List.foldl_cons] at h2 ⊢
      exact le_trans h2 h1

/-- A delegated call to a wrapped resource, as recorded by the operational
model: the call's name and, when the delegating proxy owns a monitor, that
monitor's closed flag at the moment of the call. -/
structure CallRec where
  name : String
  monClosed : Option Bool
deriving DecidableEq, Repr

/-- Global state threaded through the proxy methods: the heap of allocated
monitors (a proxy stores the index of its monitor), the trace of calls
delegated to wrapped resources, and the current stack snapshot that
`runtime.Stack` would capture. -/
structure World where
  monitors : List monitor
  calls : List CallRec
  stack : String
deriving DecidableEq, Repr

/-- Update the monitor at index `i` of the heap. -/
def updateAt : List monitor → Nat → (monitor → monitor) → List monitor
  | [], _, _ => []
  | m :: ms, 0, f => f m :: ms
  | m :: ms, Nat.succ n, f => m :: updateAt ms n f

/-- The closed flag of the monitor at index `i` (false off the heap). -/
def closedAt (w : World) (i : Nat) : Bool :=
  match w.monitors.get? i with
  | some m => m.closed
  | none => false

/-- The timeout of the monitor at index `i` (zero off the heap). -/
def timeoutAt (w : World) (i : Nat) : Nat :=
  match w.monitors.get? i with
  | some m => m.timeout
  | none => 0

/-- The resource label of the monitor at index `i`. -/
def resourceAt (w : World) (i : Nat) : String :=
  match w.monitors.get? i with
  | some m => m.resource
  | none => ""

/-- `markClosed` on the monitor at heap index `i`. -/
def markClosedAt (w : World) (i : Nat) : World :=
  { w with monitors := updateAt w.monitors i markClosed }

/-- Record a call delegated to a wrapped resource. -/
def logCall (w : World) (name : String) (flag : Option Bool) : World :=
  { w with calls := w.calls ++ [⟨name, flag⟩] }

/-- `newMonitor(timeout, resource)` of conn.go: captures the current stack
and allocates a fresh monitor with `closed = false`; returns its heap index. -/
def newMonitorW (w : World) (timeout : Nat) (resource : String) : Nat × World :=
  (w.monitors.length,
    { w with monitors := w.monitors ++ [⟨timeout, w.stack, false, resource⟩] })

/-- A wrapped `driver.Rows`.  Mandatory methods are plain fields; each
optional introspection interface of database/sql/driver is an `Option`
field whose `isSome` mirrors the Go type assertion.
`driver.RowsNextResultSet` bundles both of its methods. -/
structure WRows where
  close : Except Err Unit
  next : List Value → Except Err Unit
  precisionScale : Option (Nat → Int × Int × Bool)
  nullable : Option (Nat → Bool × Bool)
  length : Option (Nat → Int × Bool)
  databaseTypeName : Option (Nat → String)
  nextResultSet : Option ((Unit → Bool) × (Unit → Except Err Unit))

/-- A wrapped `driver.Stmt` with its optional capabilities. -/
structure WStmt where
  close : Except Err Unit
  exec : List Value → Except Err DResult
  query : List Value → Except Err WRows
  execContext : Option (Ctx → List NamedValue → Except Err DResult)
  queryContext : Option (Ctx → List NamedValue → Except Err WRows)
  namedValueChecker : Option (NamedValue → Except Err Unit)

/-- A wrapped `driver.Tx`. -/
structure WTx where
  commit : Except Err Unit
  rollback : Except Err Unit

/-- `driver.TxOptions`: isolation level and read-only flag.
`driver.IsolationLevel(sql.LevelDefault) = 0`. -/
structure TxOptions where
  isolation : Nat
  readOnly : Bool
deriving DecidableEq, Repr

/-- A wrapped `driver.Conn` with its optional capabilities
(`Execer`, `ExecerContext`, `Queryer`, `QueryerContext`,
`ConnPrepareContext`, `ConnBeginTx`, `NamedValueChecker`). -/
structure WConn where
  prepare : String → Except Err WStmt
  begin : Unit → Except Err WTx
  prepareContext : Option (Ctx → String → Except Err WStmt)
  beginTx : Option (Ctx → TxOptions → Except Err WTx)
  execer : Option (String → List Value → Except Err DResult)
  execerContext : Option (Ctx → String → List NamedValue → Except Err DResult)
  queryer : Option (String → List Value → Except Err WRows)
  queryerContext : Option (Ctx → String → List NamedValue → Except Err WRows)
  namedValueChecker : Option (NamedValue → Except Err Unit)

/-- The `monitoredConn` proxy of conn.go: the wrapped connection and the
configured timeout (connections carry no monitor of their own). -/
structure monitoredConn where
  conn : WConn
  timeout : Nat

/-- `newMonitoredConn` of conn.go. -/
def newMonitoredConn (conn : WConn) (timeout : Nat) : monitoredConn :=
  ⟨conn, timeout⟩

/-- The `monitoredStmt` proxy: wrapped statement, its monitor's heap index,
and the owning `monitoredConn` (used by the named-value fallback). -/
structure monitoredStmt where
  stmt : WStmt
  monId : Nat
  mconn : monitoredConn

/-- The `monitoredRows` proxy: wrapped cursor and its monitor's index. -/
structure monitoredRows where
  rows : WRows
  monId : Nat

/-- The `monitoredTx` proxy: wrapped transaction and its monitor's index. -/
structure monitoredTx where
  tx : WTx
  monId : Nat

/-- `newMonitoredRows` of rows.go: fresh monitor labelled "Rows" with the
given timeout. -/
def newMonitoredRows (rows : WRows) (timeout : Nat) (w : World) :
    monitoredRows × World :=
  let p := newMonitorW w timeout "Rows"
  (⟨rows, p.1⟩, p.2)

/-- `newMonitoredStmt` of the statement file: fresh monitor labelled "Stmt"
with the owning connection's timeout; keeps a reference to the owning
`monitoredConn`. -/
def newMonitoredStmt (stmt : WStmt) (mc : monitoredConn) (w : World) :
    monitoredStmt × World :=
  let p := newMonitorW w mc.timeout "Stmt"
  (⟨stmt, p.1, mc⟩, p.2)

/-- `newMonitoredTx` (the tx file, reproduced in README.md): fresh monitor
labelled "Tx" created via `newMonitor(timeout, "Tx")` with the timeout the
caller passes (`newMonitoredTx(tx, mc.timeout)` at the conn.go call
sites). -/
def newMonitoredTx (tx : WTx) (timeout : Nat) (w : World) :
    monitoredTx × World :=
  let p := newMonitorW w timeout "Tx"
  (⟨tx, p.1⟩, p.2)

/-- `namedValueToValue` (copied in the source from database/sql/ctxutil.go):
fails on the first named parameter, otherwise strips names. -/
def namedValueToValue : List NamedValue → Except Err (List Value)
  | [] => Except.ok []
  | param :: rest =>
      if 0 < param.name.length then
        Except.error (Err.errString
          "sql: driver does not support the use of Named Parameters")
      else
        match namedValueToValue rest with
        | Except.error e => Except.error e
        | Except.ok vs => Except.ok (param.value :: vs)

/-- rows.go `monitoredRows.ColumnTypePrecisionScale`: delegate when the
wrapped cursor implements `RowsColumnTypePrecisionScale`, else (0,0,false). -/
def monitoredRows.ColumnTypePrecisionScale (r : monitoredRows) (index : Nat) :
    Int × Int × Bool :=
  match r.rows.precisionScale with
  | some f => f index
  | none => (0, 0, false)

/-- rows.go `monitoredRows.ColumnTypeNullable`: delegate or (false,false). -/
def monitoredRows.ColumnTypeNullable (r : monitoredRows) (index : Nat) :
    Bool × Bool :=
  match r.rows.nullable with
  | some f => f index
  | none => (false, false)

/-- rows.go `monitoredRows.ColumnTypeLength`: delegate or (0,false). -/
def monitoredRows.ColumnTypeLength (r : monitoredRows) (index : Nat) :
    Int × Bool :=
  match r.rows.length with
  | some f => f index
  | none => (0, false)

/-- rows.go `monitoredRows.ColumnTypeDatabaseTypeName`: delegate or "". -/
def monitoredRows.ColumnTypeDatabaseTypeName (r : monitoredRows) (index : Nat) :
    String :=
  match r.rows.databaseTypeName with
  | some f => f index
  | none => ""

/-- rows.go `monitoredRows.HasNextResultSet`: delegate or false. -/
def monitoredRows.HasNextResultSet (r : monitoredRows) : Bool :=
  match r.rows.nextResultSet with
  | some p => p.1 ()
  | none => false

/-- rows.go `monitoredRows.NextResultSet`: delegate or `io.EOF`. -/
def monitoredRows.NextResultSet (r : monitoredRows) : Except Err Unit :=
  match r.rows.nextResultSet with
  | some p => p.2 ()
  | none => Except.error Err.eof

/-- rows.go `monitoredRows.Next`: plain delegation. -/
def monitoredRows.Next (r : monitoredRows) (dest : List Value) :
    Except Err Unit :=
  r.rows.next dest

/-- rows.go `monitoredRows.Close`: `markClosed` on the cursor's monitor,
then delegate to the wrapped cursor's Close. -/
def monitoredRows.Close (r : monitoredRows) (w : World) :
    Except Err Unit × World :=
  let w1 := markClosedAt w r.monId
  (r.rows.close, logCall w1 "Rows.Close" (some (closedAt w1 r.monId)))

/-- `monitoredStmt.Close`: `markClosed` on the statement's monitor, then
delegate to the wrapped statement's Close. -/
def monitoredStmt.Close (s : monitoredStmt) (w : World) :
    Except Err Unit × World :=
  let w1 := markClosedAt w s.monId
  (s.stmt.close, logCall w1 "Stmt.Close" (some (closedAt w1 s.monId)))

/-- `monitoredStmt.Query`: delegate, then wrap a produced cursor with a
fresh monitor carrying `s.monitor.timeout`. -/
def monitoredStmt.Query (s : monitoredStmt) (args : List Value) (w : World) :
    Except Err monitoredRows × World :=
  let w1 := logCall w "Stmt.Query" none
  match s.stmt.query args with
  | Except.error e => (Except.error e, w1)
  | Except.ok rows =>
      let p := newMonitoredRows rows (timeoutAt w1 s.monId) w1
      (Except.ok p.1, p.2)

/-- `monitoredStmt.ExecContext`: delegate when the wrapped statement is a
`StmtExecContext`; otherwise convert the named arguments, poll the context
once without blocking, and fall back to the mandatory Exec. -/
def monitoredStmt.ExecContext (s : monitoredStmt) (ctx : Ctx)
    (args : List NamedValue) (w : World) : Except Err DResult × World :=
  match s.stmt.execContext with
  | some execer => (execer ctx args, logCall w "Stmt.ExecContextNative" none)
  | none =>
      match namedValueToValue args with
      | Except.error e => (Except.error e, w)
      | Except.ok dargs =>
          if ctx.done then (Except.error ctx.errVal, w)
          else (s.stmt.exec dargs, logCall w "Stmt.Exec" none)

/-- `monitoredStmt.QueryContext`: delegate when the wrapped statement is a
`StmtQueryContext`, else convert arguments, poll the context once, fall back
to the mandatory Query; in both branches a produced cursor is wrapped with a
fresh monitor carrying `s.monitor.timeout`. -/
def monitoredStmt.QueryContext (s : monitoredStmt) (ctx : Ctx)
    (args : List NamedValue) (w : World) : Except Err monitoredRows × World :=
  match s.stmt.queryContext with
  | some query =>
      let w1 := logCall w "Stmt.QueryContextNative" none
      match query ctx args with
      | Except.error e => (Except.error e, w1)
      | Except.ok rows =>
          let p := newMonitoredRows rows (timeoutAt w1 s.monId) w1
          (Except.ok p.1, p.2)
  | none =>
      match namedValueToValue args with
      | Except.error e => (Except.error e, w)
      | Except.ok dargs =>
          if ctx.done then (Except.error ctx.errVal, w)
          else
            let w1 := logCall w "Stmt.Query" none
            match s.stmt.query dargs with
            | Except.error e => (Except.error e, w1)
            | Except.ok rows =>
                let p := newMonitoredRows rows (timeoutAt w1 s.monId) w1
                (Except.ok p.1, p.2)

/-- conn.go `monitoredConn.CheckNamedValue`: delegate to the wrapped
connection's `NamedValueChecker`, or `driver.ErrSkip` when absent. -/
def monitoredConn.CheckNamedValue (mc : monitoredConn) (nv : NamedValue) :
    Except Err Unit :=
  match mc.conn.namedValueChecker with
  | none => Except.error Err.errSkip
  | some f => f nv

/-- `monitoredStmt.CheckNamedValue`: delegate to the wrapped statement's
`NamedValueChecker` when present, otherwise fall back to the owning
`monitoredConn.CheckNamedValue`. -/
def monitoredStmt.CheckNamedValue (s : monitoredStmt) (nv : NamedValue) :
    Except Err Unit :=
  match s.stmt.namedValueChecker with
  | none => s.mconn.CheckNamedValue nv
  | some f => f nv

/-- `monitoredTx.Commit`: `markClosed` on the transaction's monitor, then
delegate to the wrapped transaction's Commit. -/
def monitoredTx.Commit (t : monitoredTx) (w : World) :
    Except Err Unit × World :=
  let w1 := markClosedAt w t.monId
  (t.tx.commit, logCall w1 "Tx.Commit" (some (closedAt w1 t.monId)))

/-- `monitoredTx.Rollback`: `markClosed`, then delegate to Rollback. -/
def monitoredTx.Rollback (t : monitoredTx) (w : World) :
    Except Err Unit × World :=
  let w1 := markClosedAt w t.monId
  (t.tx.rollback, logCall w1 "Tx.Rollback" (some (closedAt w1 t.monId)))

/-- conn.go `monitoredConn.Exec`: `driver.ErrSkip` when the wrapped
connection is not an `Execer`, else verbatim delegation (results are not
wrapped). -/
def monitoredConn.Exec (mc : monitoredConn) (query : String)
    (args : List Value) (w : World) : Except Err DResult × World :=
  match mc.conn.execer with
  | none => (Except.error Err.errSkip, w)
  | some f => (f query args, logCall w "Conn.Exec" none)

/-- conn.go `monitoredConn.ExecContext`: `driver.ErrSkip` when the wrapped
connection is not an `ExecerContext`, else verbatim delegation. -/
def monitoredConn.ExecContext (mc : monitoredConn) (ctx : Ctx) (query : String)
    (args : List NamedValue) (w : World) : Except Err DResult × World :=
  match mc.conn.execerContext with
  | none => (Except.error Err.errSkip, w)
  | some f => (f ctx query args, logCall w "Conn.ExecContext" none)

/-- conn.go `monitoredConn.Query`: `driver.ErrSkip` when the wrapped
connection is not a `Queryer`; else delegate, pass errors through, and wrap
a produced cursor via `newMonitoredRows` with the connection's timeout. -/
def monitoredConn.Query (mc : monitoredConn) (query : String)
    (args : List Value) (w : World) : Except Err monitoredRows × World :=
  match mc.conn.queryer with
  | none => (Except.error Err.errSkip, w)
  | some f =>
      let w1 := logCall w "Conn.Query" none
      match f query args with
      | Except.error e => (Except.error e, w1)
      | Except.ok rows =>
          let p := newMonitoredRows rows mc.timeout w1
          (Except.ok p.1, p.2)

/-- conn.go `monitoredConn.QueryContext`: `driver.ErrSkip` when the wrapped
connection is not a `QueryerContext`; else delegate and wrap as in Query. -/
def monitoredConn.QueryContext (mc : monitoredConn) (ctx : Ctx)
    (query : String) (args : List NamedValue) (w : World) :
    Except Err monitoredRows × World :=
  match mc.conn.queryerContext with
  | none => (Except.error Err.errSkip, w)
  | some f =>
      let w1 := logCall w "Conn.QueryContext" none
      match f ctx query args with
      | Except.error e => (Except.error e, w1)
      | Except.ok rows =>
          let p := newMonitoredRows rows mc.timeout w1
          (Except.ok p.1, p.2)

/-- conn.go `monitoredConn.Prepare`: delegate, then wrap the statement. -/
def monitoredConn.Prepare (mc : monitoredConn) (query : String) (w : World) :
    Except Err monitoredStmt × World :=
  let w1 := logCall w "Conn.Prepare" none
  match mc.conn.prepare query with
  | Except.error e => (Except.error e, w1)
  | Except.ok st =>
      let p := newMonitoredStmt st mc w1
      (Except.ok p.1, p.2)

/-- conn.go `monitoredConn.PrepareContext`: delegate when the wrapped
connection is a `ConnPrepareContext`; otherwise call the mandatory Prepare
first, then poll the context once without blocking — if it is already
cancelled, close the just-prepared raw statement and return `ctx.Err()`. -/
def monitoredConn.PrepareContext (mc : monitoredConn) (ctx : Ctx)
    (query : String) (w : World) : Except Err monitoredStmt × World :=
  match mc.conn.prepareContext with
  | some preparer =>
      let w1 := logCall w "Conn.PrepareContextNative" none
      match preparer ctx query with
      | Except.error e => (Except.error e, w1)
      | Except.ok st =>
          let p := newMonitoredStmt st mc w1
          (Except.ok p.1, p.2)
  | none =>
      let w1 := logCall w "Conn.Prepare" none
      match mc.conn.prepare query with
      | Except.error e => (Except.error e, w1)
      | Except.ok st =>
          if ctx.done then
            (Except.error ctx.errVal, logCall w1 "RawStmt.Close" none)
          else
            let p := newMonitoredStmt st mc w1
            (Except.ok p.1, p.2)

/-- conn.go `monitoredConn.Begin`: delegate, then wrap the transaction with
the connection's timeout. -/
def monitoredConn.Begin (mc : monitoredConn) (w : World) :
    Except Err monitoredTx × World :=
  let w1 := logCall w "Conn.Begin" none
  match mc.conn.begin () with
  | Except.error e => (Except.error e, w1)
  | Except.ok tx =>
      let p := newMonitoredTx tx mc.timeout w1
      (Except.ok p.1, p.2)

/-- conn.go `monitoredConn.BeginTx`: delegate when the wrapped connection
is a `ConnBeginTx`; otherwise reject a non-default isolation level, then a
read-only request, and finally fall back to the mandatory Begin. -/
def monitoredConn.BeginTx (mc : monitoredConn) (ctx : Ctx) (opts : TxOptions)
    (w : World) : Except Err monitoredTx × World :=
  match mc.conn.beginTx with
  | some f =>
      let w1 := logCall w "Conn.BeginTxNative" none
      match f ctx opts with
      | Except.error e => (Except.error e, w1)
      | Except.ok tx =>
          let p := newMonitoredTx tx mc.timeout w1
          (Except.ok p.1, p.2)
  | none =>
      if opts.isolation ≠ 0 then
        (Except.error (Err.errString
          "sql: driver does not support non-default isolation level"), w)
      else if opts.readOnly then
        (Except.error (Err.errString
          "sql: driver does not support read-only transactions"), w)
      else
        let w1 := logCall w "Conn.Begin" none
        match mc.conn.begin () with
        | Except.error e => (Except.error e, w1)
        | Except.ok tx =>
            let p := newMonitoredTx tx mc.timeout w1
            (Except.ok p.1, p.2)

/-- The wrapped `driver.Driver` (its mandatory Open method). -/
structure WDriver where
  openConn : String → Except Err WConn

/-- The `monitoredDriver` of the driver file: wrapped driver + timeout. -/
structure monitoredDriver where
  udriver : WDriver
  timeout : Nat

/-- `newMonitoredDriver` (timeout part; the `struct{driver.Driver}` rewrap
for non-DriverContext drivers does not affect the timeout). -/
def newMonitoredDriver (d : WDriver) (timeout : Nat) : monitoredDriver :=
  ⟨d, timeout⟩

/-- `monitoredDriver.Open`: delegate, then wrap the connection via
`newMonitoredConn` with the driver's timeout. -/
def monitoredDriver.Open (d : monitoredDriver) (name : String) :
    Except Err monitoredConn :=
  match d.udriver.openConn name with
  | Except.error e => Except.error e
  | Except.ok c => Except.ok (newMonitoredConn c d.timeout)

/-- A functional `Option` as in the source: `func(*monitoredDriver)`. -/
abbrev DriverOption := monitoredDriver → monitoredDriver

/-- `WithTimeout` of conn.go. -/
def WithTimeout (timeout : Nat) : DriverOption :=
  fun ld => { ld with timeout := timeout }

/-- Application of the options list in `Open` / `WrapDriver`. -/
def applyOptions (ld : monitoredDriver) (opts : List DriverOption) :
    monitoredDriver :=
  opts.foldl (fun d f => f d) ld

/-- `30 * time.Second` in nanoseconds. -/
def defaultTimeout : Nat := 30000000000

/-- The driver-construction core of the `Open` entry point:
`newMonitoredDriver(d, 30*time.Second)` then the options are applied (the
surrounding database/sql plumbing is standard-library code). -/
def OpenEntry (d : WDriver) (opts : List DriverOption) : monitoredDriver :=
  applyOptions (newMonitoredDriver d defaultTimeout) opts

/-- The `WrapDriver` entry point: identical construction. -/
def WrapDriver (d : WDriver) (opts : List DriverOption) : monitoredDriver :=
  applyOptions (newMonitoredDriver d defaultTimeout) opts

/-- A minimal wrapped cursor implementing only the mandatory interface. -/
def sampleWRows : WRows :=
  { close := Except.ok (), next := fun _ => Except.ok (),
    precisionScale := none, nullable := none, length := none,
    databaseTypeName := none, nextResultSet := none }

/-- A minimal wrapped statement implementing only the mandatory interface. -/
def sampleWStmt : WStmt :=
  { close := Except.ok (), exec := fun _ => Except.ok 0,
    query := fun _ => Except.ok sampleWRows,
    execContext := none, queryContext := none, namedValueChecker := none }

/-- A minimal wrapped transaction. -/
def sampleWTx : WTx :=
  { commit := Except.ok (), rollback := Except.ok () }

/-- A minimal wrapped connection implementing only the mandatory
interface. -/
def sampleWConn : WConn :=
  { prepare := fun _ => Except.ok sampleWStmt,
    begin := fun _ => Except.ok sampleWTx,
    prepareContext := none, beginTx := none, execer := none,
    execerContext := none, queryer := none, queryerContext := none,
    namedValueChecker := none }

/-- An empty world with a fixed current stack snapshot. -/
def sampleWorld : World :=
  { monitors := [], calls := [], stack := "goroutine 1" }

lemma runM_mon_fields (es : List MEvent) :
    ∀ s : MonProc × List String,
      (runM s es).1.mon.timeout = s.1.mon.timeout ∧
      (runM s es).1.mon.resource = s.1.mon.resource ∧
      (runM s es).1.mon.stack = s.1.mon.stack := by
  induction es with
  | nil => intro s; simp [runM]
  | cons e es ih =>
      intro s
      have h1 := stepM_mon_fields s e
      have h2 := ih (stepM s e)
      simp only [runM, List.foldl_cons] at h2 ⊢
      exact ⟨h2.1.trans h1.1, h2.2.1.trans h1.2.1, h2.2.2.trans h1.2.2⟩

/-- C1: for a monitor created with timeout `t` and resource kind `k`, after
any history of close events, when the deferred check fires with the closed
flag still false it appends exactly one log line, namely
"likely resource leak detected: <k> not closed within <t> after opening:"
followed by the captured stack; when the closed flag is true at fire time it
appends nothing; and over any event sequence the monitor emits at most one
warning line (the timer is one-shot). -/
theorem monitor_deferred_check_behavior
    (t : Nat) (st k : String) (es : List MEvent) (q : MonProc)
    (log : List String)
    (h : runM (newMonitorProc t st k, []) es = (q, log)) :
    (q.pending = true → q.mon.closed = false →
      (stepM (q, log) MEvent.fire).2 =
        log ++ ["likely resource leak detected: " ++ k ++ " not closed within "
          ++ durationString t ++ " after opening:\n" ++ st]) ∧
    (q.mon.closed = true → (stepM (q, log) MEvent.fire).2 = log) ∧
    log.length ≤ 1 := by
  have hf := runM_mon_fields es (newMonitorProc t st k, [])
  have hlen := runM_log_len es (newMonitorProc t st k, [])
  rw [h] at hf hlen
  simp only [newMonitorProc] at hf hlen
  refine ⟨?_, ?_, ?_⟩
  · intro hp hc
    simp [stepM, hp, hc, leakMessage, hf.1, hf.2.1, hf.2.2]
  · intro hc
    simp only [stepM]
    split
    · simp [hc]
    · rfl
  · have h2 : log.length ≤ log.length + (if q.pending then 1 else 0) :=
      Nat.le_add_right _ _
    exact le_trans h2 hlen

/-- C1 witness: a monitor with timeout 5 and kind "Rows", no intervening
events; firing the deferred check emits exactly the leak line. -/
theorem monitor_deferred_check_behavior_witness :
    (stepM (newMonitorProc 5 "S" "Rows", []) MEvent.fire).2 =
      [] ++ ["likely resource leak detected: " ++ "Rows" ++ " not closed within "
        ++ durationString 5 ++ " after opening:\n" ++ "S"] :=
  (monitor_deferred_check_behavior 5 "S" "Rows" [] (newMonitorProc 5 "S" "Rows")
    [] rfl).1 rfl rfl

lemma updateAt_length : ∀ (l : List monitor) (i : Nat) (f : monitor → monitor),
    (updateAt l i f).length = l.length
  | [], _, _ => rfl
  | _ :: _, 0, _ => rfl
  | m :: ms, Nat.succ n, f => by
      simp only [updateAt, List.length_cons, updateAt_length ms n f]

lemma updateAt_get_other : ∀ (l : List monitor) (i j : Nat)
    (f : monitor → monitor), j ≠ i →
    (updateAt l i f).get? j = l.get? j
  | [], _, _, _, _ => rfl
  | _ :: _, 0, 0, _, h => absurd rfl h
  | _ :: _, 0, Nat.succ _, _, _ => rfl
  | _ :: _, Nat.succ _, 0, _, _ => rfl
  | _ :: ms, Nat.succ n, Nat.succ j, f, h =>
      updateAt_get_other ms n j f (fun hh => h (congrArg Nat.succ hh))

lemma updateAt_get_self : ∀ (l : List monitor) (i : Nat)
    (f : monitor → monitor), i < l.length →
    (updateAt l i f).get? i = (l.get? i).map f
  | [], i, _, h => absurd h (by simp)
  | _ :: _, 0, _, _ => rfl
  | _ :: ms, Nat.succ n, f, h =>
      updateAt_get_self ms n f (Nat.lt_of_succ_lt_succ h)

lemma markClosedAt_calls (w : World) (i : Nat) :
    (markClosedAt w i).calls = w.calls := rfl

lemma markClosedAt_length (w : World) (i : Nat) :
    (markClosedAt w i).monitors.length = w.monitors.length :=
  updateAt_length w.monitors i markClosed

lemma closedAt_markClosedAt_self (w : World) (i : Nat)
    (h : i < w.monitors.length) :
    closedAt (markClosedAt w i) i = true := by
  have hg := updateAt_get_self w.monitors i markClosed h
  simp only [closedAt, markClosedAt]
  rw [hg]
  match hm : w.monitors.get? i with
  | some m => simp [markClosed]
  | none =>
      rw [List.get?_eq_none] at hm
      omega

lemma markClosedAt_get_other (w : World) (i j : Nat) (h : j ≠ i) :
    (markClosedAt w i).monitors.get? j = w.monitors.get? j :=
  updateAt_get_other w.monitors i j markClosed h

/-- C2: every close path marks the proxy's own monitor closed before
delegating to the wrapped resource: after Tx.Commit, Tx.Rollback,
Stmt.Close, or Rows.Close the proxy's monitor is closed, exactly one
delegated call is appended to the trace, and that call is recorded with the
monitor already closed; the delegated result is the wrapped resource's own.
For transactions, after Commit has run first, Rollback still marks the
monitor closed and still delegates (and symmetrically). -/
theorem close_paths_mark_closed_before_delegating
    (w : World) (t : monitoredTx) (s : monitoredStmt) (r : monitoredRows)
    (ht : t.monId < w.monitors.length)
    (hs : s.monId < w.monitors.length)
    (hr : r.monId < w.monitors.length) :
    (closedAt (t.Commit w).2 t.monId = true ∧
      (t.Commit w).2.calls = w.calls ++ [⟨"Tx.Commit", some true⟩] ∧
      (t.Commit w).1 = t.tx.commit) ∧
    (closedAt (t.Rollback (t.Commit w).2).2 t.monId = true ∧
      (t.Rollback (t.Commit w).2).2.calls =
        (t.Commit w).2.calls ++ [⟨"Tx.Rollback", some true⟩] ∧
      (t.Rollback (t.Commit w).2).1 = t.tx.rollback) ∧
    (closedAt (s.Close w).2 s.monId = true ∧
      (s.Close w).2.calls = w.calls ++ [⟨"Stmt.Close", some true⟩] ∧
      (s.Close w).1 = s.stmt.close) ∧
    (closedAt (r.Close w).2 r.monId = true ∧
      (r.Close w).2.calls = w.calls ++ [⟨"Rows.Close", some true⟩] ∧
      (r.Close w).1 = r.rows.close) := by
  have hct := closedAt_markClosedAt_self w t.monId ht
  have hcs := closedAt_markClosedAt_self w s.monId hs
  have hcr := closedAt_markClosedAt_self w r.monId hr
  have hlen1 : t.monId < (t.Commit w).2.monitors.length := by
    simp only [monitoredTx.Commit, logCall, markClosedAt]
    rw [updateAt_length]
    exact ht
  have hct2 := closedAt_markClosedAt_self (t.Commit w).2 t.monId hlen1
  refine ⟨⟨?_, ?_, rfl⟩, ⟨?_, ?_, rfl⟩, ⟨?_, ?_, rfl⟩, ⟨?_, ?_, rfl⟩⟩
  · simp [monitoredTx.Commit, closedAt, logCall] at hct ⊢
    exact hct
  · simp [monitoredTx.Commit, logCall, markClosedAt_calls, hct]
  · simp only [monitoredTx.Rollback, closedAt, logCall] at hct2 ⊢
    exact hct2
  · simp [monitoredTx.Rollback, logCall, markClosedAt_calls, hct2]
  · simp [monitoredStmt.Close, closedAt, logCall] at hcs ⊢
    exact hcs
  · simp [monitoredStmt.Close, logCall, markClosedAt_calls, hcs]
  · simp [monitoredRows.Close, closedAt, logCall] at hcr ⊢
    exact hcr
  · simp [monitoredRows.Close, logCall, markClosedAt_calls, hcr]

/-- Transaction, statement and cursor proxies over the minimal wrapped
resources, with monitors 0, 1, 2 of a three-monitor world. -/
def w3 : World :=
  { monitors := [⟨5, "a", false, "Tx"⟩, ⟨5, "b", false, "Stmt"⟩,
      ⟨5, "c", false, "Rows"⟩],
    calls := [], stack := "st" }

/-- Transaction proxy owning monitor 0 of `w3`. -/
def tx0 : monitoredTx := ⟨sampleWTx, 0⟩

/-- Statement proxy owning monitor 1 of `w3`. -/
def stmt1 : monitoredStmt := ⟨sampleWStmt, 1, newMonitoredConn sampleWConn 5⟩

/-- Cursor proxy owning monitor 2 of `w3`. -/
def rows2 : monitoredRows := ⟨sampleWRows, 2⟩

/-- C2 witness: concrete three-monitor world; Commit delegates with the
transaction monitor already closed. -/
theorem close_paths_mark_closed_before_delegating_witness :
    closedAt (tx0.Commit w3).2 tx0.monId = true ∧
    (tx0.Commit w3).2.calls = w3.calls ++ [⟨"Tx.Commit", some true⟩] ∧
    (tx0.Commit w3).1 = tx0.tx.commit :=
  (close_paths_mark_closed_before_delegating w3 tx0 stmt1 rows2
    (by decide) (by decide) (by decide)).1

/-- C3: closing a child resource mutates only its own monitor: Rows.Close
leaves the statement's monitor heap entry unchanged while closing the
cursor's own monitor, and Stmt.Close leaves the cursor's monitor entry
unchanged while closing the statement's own monitor.  (A `monitoredConn`
holds no monitor at all — only the wrapped connection and the timeout — so
no connection monitor state exists to change.) -/
theorem close_child_frame
    (w : World) (s : monitoredStmt) (r : monitoredRows)
    (hne : r.monId ≠ s.monId)
    (hr : r.monId < w.monitors.length)
    (hs : s.monId < w.monitors.length) :
    ((r.Close w).2.monitors.get? s.monId = w.monitors.get? s.monId ∧
      closedAt (r.Close w).2 r.monId = true) ∧
    ((s.Close w).2.monitors.get? r.monId = w.monitors.get? r.monId ∧
      closedAt (s.Close w).2 s.monId = true) := by
  have h1 := markClosedAt_get_other w r.monId s.monId (Ne.symm hne)
  have h2 := markClosedAt_get_other w s.monId r.monId hne
  have hcr := closedAt_markClosedAt_self w r.monId hr
  have hcs := closedAt_markClosedAt_self w s.monId hs
  refine ⟨⟨?_, ?_⟩, ⟨?_, ?_⟩⟩
  · simpa [monitoredRows.Close, logCall] using h1
  · simp [monitoredRows.Close, closedAt, logCall] at hcr ⊢
    exact hcr
  · simpa [monitoredStmt.Close, logCall] using h2
  · simp [monitoredStmt.Close, closedAt, logCall] at hcs ⊢
    exact hcs

/-- C3 witness: in the concrete three-monitor world, closing the cursor
leaves the statement's monitor entry intact and closes the cursor's own. -/
theorem close_child_frame_witness :
    ((rows2.Close w3).2.monitors.get? stmt1.monId =
        w3.monitors.get? stmt1.monId ∧
      closedAt (rows2.Close w3).2 rows2.monId = true) ∧
    ((stmt1.Close w3).2.monitors.get? rows2.monId =
        w3.monitors.get? rows2.monId ∧
      closedAt (stmt1.Close w3).2 stmt1.monId = true) :=
  close_child_frame w3 stmt1 rows2 (by decide) (by decide) (by decide)

lemma get?_append_length (l : List monitor) (m : monitor) :
    (l ++ [m]).get? l.length = some m := by
  induction l with
  | nil => rfl
  | cons a as ih => simp [ih]

lemma fresh_monitor_fields (w : World) (tmo : Nat) (res : String) :
    (newMonitorW w tmo res).1 = w.monitors.length ∧
    timeoutAt (newMonitorW w tmo res).2 w.monitors.length = tmo ∧
    resourceAt (newMonitorW w tmo res).2 w.monitors.length = res ∧
    closedAt (newMonitorW w tmo res).2 w.monitors.length = false := by
  refine ⟨rfl, ?_, ?_, ?_⟩ <;>
    simp [newMonitorW, timeoutAt, resourceAt, closedAt, get?_append_length]

lemma logCall_monitors (w : World) (n : String) (f : Option Bool) :
    (logCall w n f).monitors = w.monitors := rfl

/-- C7: named-value validation is a two-level fallback: the wrapped
statement's checker when it has one; otherwise the owning connection proxy's
CheckNamedValue, which delegates to the wrapped connection's checker when
present and returns `driver.ErrSkip` only when both are absent — never
skipping while the connection still has a checker. -/
theorem checkNamedValue_two_level_fallback
    (st : WStmt) (cn : WConn) (mId tmo : Nat) (nv : NamedValue) :
    (∀ f, (monitoredStmt.mk { st with namedValueChecker := some f } mId
        (newMonitoredConn cn tmo)).CheckNamedValue nv = f nv) ∧
    ((monitoredStmt.mk { st with namedValueChecker := none } mId
        (newMonitoredConn cn tmo)).CheckNamedValue nv =
      (newMonitoredConn cn tmo).CheckNamedValue nv) ∧
    (∀ g, (monitoredStmt.mk { st with namedValueChecker := none } mId
        (newMonitoredConn { cn with namedValueChecker := some g } tmo)).CheckNamedValue
        nv = g nv) ∧
    ((monitoredStmt.mk { st with namedValueChecker := none } mId
        (newMonitoredConn { cn with namedValueChecker := none } tmo)).CheckNamedValue
        nv = Except.error Err.errSkip) :=
  ⟨fun _ => rfl, rfl, fun _ => rfl, rfl⟩

/-- C8: each optional cursor introspection call is delegated verbatim when
the wrapped cursor implements the corresponding interface and otherwise
returns the defined neutral/empty result: (0,0,false) for precision/scale,
(false,false) for nullability, (0,false) for length, "" for the database
type name, false for HasNextResultSet and `io.EOF` for NextResultSet. -/
theorem rows_introspection_probe_or_default
    (rw : WRows) (mId i : Nat) :
    ((monitoredRows.mk { rw with precisionScale := none } mId).ColumnTypePrecisionScale
        i = (0, 0, false)) ∧
    (∀ f, (monitoredRows.mk { rw with precisionScale := some f } mId).ColumnTypePrecisionScale
        i = f i) ∧
    ((monitoredRows.mk { rw with nullable := none } mId).ColumnTypeNullable
        i = (false, false)) ∧
    (∀ f, (monitoredRows.mk { rw with nullable := some f } mId).ColumnTypeNullable
        i = f i) ∧
    ((monitoredRows.mk { rw with length := none } mId).ColumnTypeLength
        i = (0, false)) ∧
    (∀ f, (monitoredRows.mk { rw with length := some f } mId).ColumnTypeLength
        i = f i) ∧
    ((monitoredRows.mk { rw with databaseTypeName := none } mId).ColumnTypeDatabaseTypeName
        i = "") ∧
    (∀ f, (monitoredRows.mk { rw with databaseTypeName := some f } mId).ColumnTypeDatabaseTypeName
        i = f i) ∧
    ((monitoredRows.mk { rw with nextResultSet := none } mId).HasNextResultSet
        = false) ∧
    ((monitoredRows.mk { rw with nextResultSet := none } mId).NextResultSet
        = Except.error Err.eof) ∧
    (∀ p, (monitoredRows.mk { rw with nextResultSet := some p } mId).HasNextResultSet
          = p.1 () ∧
        (monitoredRows.mk { rw with nextResultSet := some p } mId).NextResultSet
          = p.2 ()) :=
  ⟨rfl, fun _ => rfl, rfl, fun _ => rfl, rfl, fun _ => rfl, rfl, fun _ => rfl,
    rfl, rfl, fun _ => ⟨rfl, rfl⟩⟩

/-- C6: for each direct (no-prepare) execution capability of the connection
proxy — Exec, ExecContext, Query, QueryContext — if the wrapped connection
lacks the optional interface the proxy returns `driver.ErrSkip` and no
result (the world is untouched); if it has it, the call is delegated
verbatim and errors come back unchanged; a successfully produced cursor is
returned wrapped in a `monitoredRows` whose freshly created monitor carries
the connection's configured timeout (and kind "Rows", still open). -/
theorem conn_direct_exec_query_dispatch
    (cn : WConn) (tmo : Nat) (ctx : Ctx) (q : String)
    (args : List Value) (nargs : List NamedValue) (w : World) :
    ((newMonitoredConn { cn with execer := none } tmo).Exec q args w =
      (Except.error Err.errSkip, w)) ∧
    (∀ f, (newMonitoredConn { cn with execer := some f } tmo).Exec q args w =
      (f q args, logCall w "Conn.Exec" none)) ∧
    ((newMonitoredConn { cn with execerContext := none } tmo).ExecContext
        ctx q nargs w = (Except.error Err.errSkip, w)) ∧
    (∀ f, (newMonitoredConn { cn with execerContext := some f } tmo).ExecContext
        ctx q nargs w = (f ctx q nargs, logCall w "Conn.ExecContext" none)) ∧
    ((newMonitoredConn { cn with queryer := none } tmo).Query q args w =
      (Except.error Err.errSkip, w)) ∧
    (∀ f e, f q args = Except.error e →
      (newMonitoredConn { cn with queryer := some f } tmo).Query q args w =
        (Except.error e, logCall w "Conn.Query" none)) ∧
    (∀ f rows, f q args = Except.ok rows →
      ((newMonitoredConn { cn with queryer := some f } tmo).Query q args w).1 =
          Except.ok (monitoredRows.mk rows w.monitors.length) ∧
        timeoutAt ((newMonitoredConn { cn with queryer := some f } tmo).Query
          q args w).2 w.monitors.length = tmo ∧
        resourceAt ((newMonitoredConn { cn with queryer := some f } tmo).Query
          q args w).2 w.monitors.length = "Rows" ∧
        closedAt ((newMonitoredConn { cn with queryer := some f } tmo).Query
          q args w).2 w.monitors.length = false) ∧
    ((newMonitoredConn { cn with queryerContext := none } tmo).QueryContext
        ctx q nargs w = (Except.error Err.errSkip, w)) ∧
    (∀ f e, f ctx q nargs = Except.error e →
      (newMonitoredConn { cn with queryerContext := some f } tmo).QueryContext
          ctx q nargs w = (Except.error e, logCall w "Conn.QueryContext" none)) ∧
    (∀ f rows, f ctx q nargs = Except.ok rows →
      ((newMonitoredConn { cn with queryerContext := some f } tmo).QueryContext
          ctx q nargs w).1 =
          Except.ok (monitoredRows.mk rows w.monitors.length) ∧
        timeoutAt ((newMonitoredConn { cn with queryerContext := some f } tmo).QueryContext
          ctx q nargs w).2 w.monitors.length = tmo ∧
        resourceAt ((newMonitoredConn { cn with queryerContext := some f } tmo).QueryContext
          ctx q nargs w).2 w.monitors.length = "Rows" ∧
        closedAt ((newMonitoredConn { cn with queryerContext := some f } tmo).QueryContext
          ctx q nargs w).2 w.monitors.length = false) := by
  have hfresh := fresh_monitor_fields (logCall w "Conn.Query" none) tmo "Rows"
  have hfresh2 := fresh_monitor_fields (logCall w "Conn.QueryContext" none) tmo "Rows"
  rw [logCall_monitors] at hfresh hfresh2
  refine ⟨rfl, fun _ => rfl, rfl, fun _ => rfl, rfl, ?_, ?_, rfl, ?_, ?_⟩
  · intro f e hf
    simp [monitoredConn.Query, newMonitoredConn, hf]
  · intro f rows hf
    refine ⟨?_, ?_, ?_, ?_⟩ <;>
      simp [monitoredConn.Query, newMonitoredConn, hf, newMonitoredRows,
        hfresh.1, hfresh.2.1, hfresh.2.2.1, hfresh.2.2.2]
  · intro f e hf
    simp [monitoredConn.QueryContext, newMonitoredConn, hf]
  · intro f rows hf
    refine ⟨?_, ?_, ?_, ?_⟩ <;>
      simp [monitoredConn.QueryContext, newMonitoredConn, hf, newMonitoredRows,
        hfresh2.1, hfresh2.2.1, hfresh2.2.2.1, hfresh2.2.2.2]

/-- C6 witness: a wrapped connection whose Queryer returns a cursor; the
proxy wraps it with a fresh open monitor labelled "Rows" carrying the
configured timeout 7. -/
theorem conn_direct_exec_query_dispatch_witness :
    ((newMonitoredConn { sampleWConn with
        queryer := some fun _ _ => Except.ok sampleWRows } 7).Query
        "q" [] sampleWorld).1 =
      Except.ok (monitoredRows.mk sampleWRows sampleWorld.monitors.length) ∧
    timeoutAt ((newMonitoredConn { sampleWConn with
        queryer := some fun _ _ => Except.ok sampleWRows } 7).Query
        "q" [] sampleWorld).2 sampleWorld.monitors.length = 7 ∧
    resourceAt ((newMonitoredConn { sampleWConn with
        queryer := some fun _ _ => Except.ok sampleWRows } 7).Query
        "q" [] sampleWorld).2 sampleWorld.monitors.length = "Rows" ∧
    closedAt ((newMonitoredConn { sampleWConn with
        queryer := some fun _ _ => Except.ok sampleWRows } 7).Query
        "q" [] sampleWorld).2 sampleWorld.monitors.length = false :=
  (conn_direct_exec_query_dispatch sampleWConn 7 ⟨false, Err.canceled⟩ "q" []
      [] sampleWorld).2.2.2.2.2.2.1
    (fun _ _ => Except.ok sampleWRows) sampleWRows rfl

/-- C5 counterexample: on a wrapped connection without ConnBeginTx, BeginTx
with the read-only option set but a non-default isolation level (1) returns
the non-default-isolation error, not the read-only error the claim promises
for every read-only request. -/
theorem beginTx_readonly_claim_counterexample :
    ((newMonitoredConn sampleWConn 5).BeginTx ⟨false, Err.canceled⟩
        ⟨1, true⟩ sampleWorld).1 =
      Except.error (Err.errString
        "sql: driver does not support non-default isolation level") ∧
    ¬(((newMonitoredConn sampleWConn 5).BeginTx ⟨false, Err.canceled⟩
        ⟨1, true⟩ sampleWorld).1 =
      Except.error (Err.errString
        "sql: driver does not support read-only transactions")) := by
  refine ⟨rfl, fun h => ?_⟩
  have h2 : Err.errString
      "sql: driver does not support non-default isolation level" =
      Err.errString "sql: driver does not support read-only transactions" := by
    have h1 : ((newMonitoredConn sampleWConn 5).BeginTx ⟨false, Err.canceled⟩
        ⟨1, true⟩ sampleWorld).1 =
      Except.error (Err.errString
        "sql: driver does not support non-default isolation level") := rfl
    rw [h1] at h
    injection h
  injection h2 with h3
  exact absurd h3 (by decide)

/-- C5 amended: on a proxy whose wrapped connection lacks ConnBeginTx, a
non-default isolation level yields the error "sql: driver does not support
non-default isolation level" (this check runs first, so it also wins when
read-only is requested as well); a read-only request at the default
isolation level yields "sql: driver does not support read-only
transactions"; in both cases nothing is delegated and no transaction is
begun (the world is unchanged); with default options the proxy falls back
to the mandatory Begin, passes its error through unchanged, and wraps a
begun transaction. -/
theorem beginTx_unsupported_options
    (cn : WConn) (tmo : Nat) (ctx : Ctx) (opts : TxOptions) (w : World) :
    (opts.isolation ≠ 0 →
      (newMonitoredConn { cn with beginTx := none } tmo).BeginTx ctx opts w =
        (Except.error (Err.errString
          "sql: driver does not support non-default isolation level"), w)) ∧
    (opts.isolation = 0 → opts.readOnly = true →
      (newMonitoredConn { cn with beginTx := none } tmo).BeginTx ctx opts w =
        (Except.error (Err.errString
          "sql: driver does not support read-only transactions"), w)) ∧
    (opts.isolation = 0 → opts.readOnly = false →
      (∀ e, cn.begin () = Except.error e →
        (newMonitoredConn { cn with beginTx := none } tmo).BeginTx ctx opts w =
          (Except.error e, logCall w "Conn.Begin" none)) ∧
      (∀ tx, cn.begin () = Except.ok tx →
        ((newMonitoredConn { cn with beginTx := none } tmo).BeginTx ctx opts
            w).1 = Except.ok (monitoredTx.mk tx w.monitors.length))) := by
  refine ⟨?_, ?_, ?_⟩
  · intro hiso
    simp [monitoredConn.BeginTx, newMonitoredConn, hiso]
  · intro hiso hro
    simp [monitoredConn.BeginTx, newMonitoredConn, hiso, hro]
  · intro hiso hro
    constructor
    · intro e he
      simp [monitoredConn.BeginTx, newMonitoredConn, hiso, hro, he]
    · intro tx htx
      simp [monitoredConn.BeginTx, newMonitoredConn, hiso, hro, htx,
        newMonitoredTx, newMonitorW, logCall]

/-- C5 witness: non-default isolation level 1 on a minimal wrapped
connection yields the descriptive isolation error and leaves the world
untouched. -/
theorem beginTx_unsupported_options_witness :
    (newMonitoredConn { sampleWConn with beginTx := none } 5).BeginTx
        ⟨false, Err.canceled⟩ ⟨1, false⟩ sampleWorld =
      (Except.error (Err.errString
        "sql: driver does not support non-default isolation level"),
        sampleWorld) :=
  (beginTx_unsupported_options sampleWConn 5 ⟨false, Err.canceled⟩ ⟨1, false⟩
    sampleWorld).1 (by decide)

/-- C4 counterexample: PrepareContext on a wrapped connection without
ConnPrepareContext, with the context already cancelled, does return the
cancellation error — but the mandatory Prepare call IS performed first (it
appears in the delegation trace, followed by the close of the raw
statement), contradicting "returns the context's cancellation error without
performing the mandatory call". -/
theorem prepareContext_performs_mandatory_call_counterexample :
    ((newMonitoredConn sampleWConn 5).PrepareContext ⟨true, Err.canceled⟩
        "q" sampleWorld).1 = Except.error Err.canceled ∧
    ((newMonitoredConn sampleWConn 5).PrepareContext ⟨true, Err.canceled⟩
        "q" sampleWorld).2.calls =
      [⟨"Conn.Prepare", none⟩, ⟨"RawStmt.Close", none⟩] := by
  exact ⟨rfl, rfl⟩

/-- C4 amended: for the statement proxy's context-aware fallbacks
(ExecContext, QueryContext on a wrapped statement lacking the context-aware
interface), provided the arguments convert (no named parameters), the proxy
polls the context exactly once without blocking: if it is already cancelled
it returns `ctx.Err()` without touching the wrapped statement (no delegated
call, world unchanged), otherwise it delegates to the mandatory
Exec/Query and observes no cancellation during that call.  For
PrepareContext the fallback instead performs the mandatory Prepare first and
polls afterwards: if the context was already cancelled it closes the
just-prepared raw statement and returns `ctx.Err()`; otherwise the prepared
statement is wrapped and returned. -/
theorem context_fallback_single_poll
    (cn : WConn) (st : WStmt) (tmo mId : Nat) (ctx : Ctx) (q : String)
    (nargs : List NamedValue) (dargs : List Value) (w : World)
    (hconv : namedValueToValue nargs = Except.ok dargs) :
    (ctx.done = true →
      (monitoredStmt.mk { st with execContext := none } mId
          (newMonitoredConn cn tmo)).ExecContext ctx nargs w =
        (Except.error ctx.errVal, w)) ∧
    (ctx.done = false →
      (monitoredStmt.mk { st with execContext := none } mId
          (newMonitoredConn cn tmo)).ExecContext ctx nargs w =
        (st.exec dargs, logCall w "Stmt.Exec" none)) ∧
    (ctx.done = true →
      (monitoredStmt.mk { st with queryContext := none } mId
          (newMonitoredConn cn tmo)).QueryContext ctx nargs w =
        (Except.error ctx.errVal, w)) ∧
    (ctx.done = false → ∀ e, st.query dargs = Except.error e →
      (monitoredStmt.mk { st with queryContext := none } mId
          (newMonitoredConn cn tmo)).QueryContext ctx nargs w =
        (Except.error e, logCall w "Stmt.Query" none)) ∧
    (ctx.done = false → ∀ rows, st.query dargs = Except.ok rows →
      ((monitoredStmt.mk { st with queryContext := none } mId
          (newMonitoredConn cn tmo)).QueryContext ctx nargs w).1 =
        Except.ok (monitoredRows.mk rows w.monitors.length)) ∧
    (ctx.done = true → ∀ stp, cn.prepare q = Except.ok stp →
      (newMonitoredConn { cn with prepareContext := none } tmo).PrepareContext
          ctx q w =
        (Except.error ctx.errVal,
          logCall (logCall w "Conn.Prepare" none) "RawStmt.Close" none)) ∧
    (ctx.done = false → ∀ stp, cn.prepare q = Except.ok stp →
      ((newMonitoredConn { cn with prepareContext := none } tmo).PrepareContext
          ctx q w).1 =
        Except.ok (monitoredStmt.mk stp w.monitors.length
          (newMonitoredConn { cn with prepareContext := none } tmo))) := by
  refine ⟨?_, ?_, ?_, ?_, ?_, ?_, ?_⟩
  · intro hd
    simp [monitoredStmt.ExecContext, hconv, hd]
  · intro hd
    simp [monitoredStmt.ExecContext, hconv, hd]
  · intro hd
    simp [monitoredStmt.QueryContext, hconv, hd]
  · intro hd e he
    simp [monitoredStmt.QueryContext, hconv, hd, he]
  · intro hd rows hrows
    simp [monitoredStmt.QueryContext, hconv, hd, hrows, newMonitoredRows,
      newMonitorW, logCall]
  · intro hd stp hp
    simp [monitoredConn.PrepareContext, newMonitoredConn, hp, hd]
  · intro hd stp hp
    simp [monitoredConn.PrepareContext, newMonitoredConn, hp, hd,
      newMonitoredStmt, newMonitorW, logCall]

/-- C4 witness: an already-cancelled context makes the ExecContext fallback
return the cancellation error with the wrapped statement untouched. -/
theorem context_fallback_single_poll_witness :
    (monitoredStmt.mk { sampleWStmt with execContext := none } 0
        (newMonitoredConn sampleWConn 5)).ExecContext ⟨true, Err.canceled⟩
        [] sampleWorld =
      (Except.error Err.canceled, sampleWorld) :=
  (context_fallback_single_poll sampleWConn sampleWStmt 5 0
    ⟨true, Err.canceled⟩ "q" [] [] sampleWorld rfl).1 rfl

/-- C10: in the PrepareContext fallback path, when the non-blocking poll
finds the context already cancelled after the mandatory Prepare succeeded,
the proxy closes the just-prepared raw statement (the close appears in the
trace right after the Prepare) and returns the cancellation error, and no
monitor is allocated for the abandoned statement. -/
theorem prepareContext_cancel_closes_prepared_stmt
    (cn : WConn) (tmo : Nat) (ctx : Ctx) (q : String) (w : World)
    (hdone : ctx.done = true) (stp : WStmt)
    (hp : cn.prepare q = Except.ok stp) :
    (newMonitoredConn { cn with prepareContext := none } tmo).PrepareContext
        ctx q w =
      (Except.error ctx.errVal,
        logCall (logCall w "Conn.Prepare" none) "RawStmt.Close" none) ∧
    ((newMonitoredConn { cn with prepareContext := none } tmo).PrepareContext
        ctx q w).2.monitors = w.monitors ∧
    ((newMonitoredConn { cn with prepareContext := none } tmo).PrepareContext
        ctx q w).2.calls =
      w.calls ++ [⟨"Conn.Prepare", none⟩, ⟨"RawStmt.Close", none⟩] := by
  have h1 : (newMonitoredConn { cn with prepareContext := none }
      tmo).PrepareContext ctx q w =
      (Except.error ctx.errVal,
        logCall (logCall w "Conn.Prepare" none) "RawStmt.Close" none) := by
    simp [monitoredConn.PrepareContext, newMonitoredConn, hp, hdone]
  refine ⟨h1, ?_, ?_⟩
  · rw [h1]
    rfl
  · rw [h1]
    simp [logCall]

/-- C10 witness: concrete cancelled context over the minimal wrapped
connection; the raw statement close fires and the cancellation error is
returned. -/
theorem prepareContext_cancel_closes_prepared_stmt_witness :
    (newMonitoredConn { sampleWConn with prepareContext := none }
        5).PrepareContext ⟨true, Err.canceled⟩ "q" sampleWorld =
      (Except.error Err.canceled,
        logCall (logCall sampleWorld "Conn.Prepare" none) "RawStmt.Close"
          none) ∧
    ((newMonitoredConn { sampleWConn with prepareContext := none }
        5).PrepareContext ⟨true, Err.canceled⟩ "q" sampleWorld).2.monitors =
      sampleWorld.monitors ∧
    ((newMonitoredConn { sampleWConn with prepareContext := none }
        5).PrepareContext ⟨true, Err.canceled⟩ "q" sampleWorld).2.calls =
      sampleWorld.calls ++ [⟨"Conn.Prepare", none⟩, ⟨"RawStmt.Close", none⟩] :=
  prepareContext_cancel_closes_prepared_stmt sampleWConn 5
    ⟨true, Err.canceled⟩ "q" sampleWorld rfl sampleWStmt rfl

/-- C9: the timeout defaults to 30 seconds (30000000000 ns) at root-proxy
construction in both entry points, is overridden by `WithTimeout` when
supplied, and the root proxy's value reaches every descendant monitor
unchanged: the connection produced by the driver carries it, and every
statement, cursor (whether produced by the connection or by a statement)
and transaction monitor created below a connection carries exactly the
connection's timeout. -/
theorem timeout_default_and_propagation
    (d : WDriver) (t : Nat) (cn : WConn) (w : World) :
    (OpenEntry d []).timeout = defaultTimeout ∧
    (WrapDriver d []).timeout = defaultTimeout ∧
    defaultTimeout = 30000000000 ∧
    (OpenEntry d [WithTimeout t]).timeout = t ∧
    (WrapDriver d [WithTimeout t]).timeout = t ∧
    (∀ name c, d.openConn name = Except.ok c →
      (monitoredDriver.mk d t).Open name = Except.ok (newMonitoredConn c t) ∧
        (newMonitoredConn c t).timeout = t) ∧
    (∀ q stp, cn.prepare q = Except.ok stp →
      ((newMonitoredConn cn t).Prepare q w).1 =
          Except.ok (monitoredStmt.mk stp w.monitors.length
            (newMonitoredConn cn t)) ∧
        timeoutAt ((newMonitoredConn cn t).Prepare q w).2
          w.monitors.length = t ∧
        resourceAt ((newMonitoredConn cn t).Prepare q w).2
          w.monitors.length = "Stmt") ∧
    (∀ f q args rows, f q args = Except.ok rows →
      timeoutAt ((newMonitoredConn { cn with queryer := some f } t).Query
          q args w).2 w.monitors.length = t ∧
        resourceAt ((newMonitoredConn { cn with queryer := some f } t).Query
          q args w).2 w.monitors.length = "Rows") ∧
    (∀ s : monitoredStmt, ∀ args rows, s.stmt.query args = Except.ok rows →
      timeoutAt w s.monId = t →
        timeoutAt ((s.Query args w).2) w.monitors.length = t ∧
        resourceAt ((s.Query args w).2) w.monitors.length = "Rows") ∧
    (∀ tx, cn.begin () = Except.ok tx →
      timeoutAt ((newMonitoredConn cn t).Begin w).2 w.monitors.length = t ∧
        resourceAt ((newMonitoredConn cn t).Begin w).2
          w.monitors.length = "Tx") := by
  refine ⟨rfl, rfl, rfl, rfl, rfl, ?_, ?_, ?_, ?_, ?_⟩
  · intro name c hc
    exact ⟨by simp [monitoredDriver.Open, hc], rfl⟩
  · intro q stp hp
    have hfresh := fresh_monitor_fields (logCall w "Conn.Prepare" none) t "Stmt"
    rw [logCall_monitors] at hfresh
    refine ⟨?_, ?_, ?_⟩ <;>
      simp [monitoredConn.Prepare, newMonitoredConn, hp, newMonitoredStmt,
        hfresh.1, hfresh.2.1, hfresh.2.2.1]
  · intro f q args rows hf
    have hfresh := fresh_monitor_fields (logCall w "Conn.Query" none) t "Rows"
    rw [logCall_monitors] at hfresh
    constructor <;>
      simp [monitoredConn.Query, newMonitoredConn, hf, newMonitoredRows,
        hfresh.2.1, hfresh.2.2.1]
  · intro s args rows hrows htm
    have hfresh := fresh_monitor_fields (logCall w "Stmt.Query" none) t "Rows"
    rw [logCall_monitors] at hfresh
    have htm2 : timeoutAt (logCall w "Stmt.Query" none) s.monId = t := htm
    constructor <;>
      simp [monitoredStmt.Query, hrows, newMonitoredRows, htm2,
        hfresh.2.1, hfresh.2.2.1]
  · intro tx htx
    have hfresh := fresh_monitor_fields (logCall w "Conn.Begin" none) t "Tx"
    rw [logCall_monitors] at hfresh
    constructor <;>
      simp [monitoredConn.Begin, newMonitoredConn, htx, newMonitoredTx,
        hfresh.2.1, hfresh.2.2.1]

/-- C9 witness: with the default construction and an override to 7, and a
minimal wrapped connection, the statement prepared under a connection with
timeout 7 gets a fresh "Stmt" monitor with timeout 7. -/
theorem timeout_default_and_propagation_witness :
    ((newMonitoredConn sampleWConn 7).Prepare "q" sampleWorld).1 =
        Except.ok (monitoredStmt.mk sampleWStmt
          sampleWorld.monitors.length (newMonitoredConn sampleWConn 7)) ∧
      timeoutAt ((newMonitoredConn sampleWConn 7).Prepare "q"
        sampleWorld).2 sampleWorld.monitors.length = 7 ∧
      resourceAt ((newMonitoredConn sampleWConn 7).Prepare "q"
        sampleWorld).2 sampleWorld.monitors.length = "Stmt" :=
  (timeout_default_and_propagation (WDriver.mk fun _ =>
      Except.ok sampleWConn) 7 sampleWConn sampleWorld).2.2.2.2.2.2.1
    "q" sampleWStmt rfl

end Sqleak
